import Mathlib

/-!
# Verification of the plant-watering tracker (src/app.py)

Shallow embedding of the Flask application in src/app.py.  Dates are
modelled as integers (days since an arbitrary epoch): the code only ever
adds a number of days to a date and subtracts two dates, so the affine
structure of Int captures `datetime.date` exactly for these operations.
The database (two tables, Plant and WateringHistory) is modelled as two
lists of records; SQLAlchemy row order for `query.all()` is the list
order.  Request handlers become functions from a `Store` (and the inputs
the request carries) to a result together with the post-state of the
store; a handler that raises before any session mutation returns the
store unchanged.
-/

namespace PlantTracker

/-- Row of the `Plant` table (app.py lines 20-30): name, watering
frequency in days, and the date the plant was last watered. -/
structure Plant where
  id : Nat
  name : String
  frequency : Int
  last_watered : Int
  deriving Repr, DecidableEq

/-- Row of the `WateringHistory` table (app.py lines 33-44): which plant
was watered and on which date. -/
structure WateringHistory where
  id : Nat
  plant_id : Nat
  date : Int
  deriving Repr, DecidableEq

/-- The database: the two tables. -/
structure Store where
  plants : List Plant
  history : List WateringHistory
  deriving Repr, DecidableEq

/-- The four status labels assigned by the homepage view. -/
inductive Status
  | overdue
  | due_today
  | due_soon
  | healthy
  deriving Repr, DecidableEq

/-- The per-plant record the homepage view builds (the `plant_info`
dictionary, app.py lines 87-95).  The presentation-only
`last_watered_human` field (a strftime rendering of `last_watered`) is
omitted; it carries no information beyond `plant.last_watered`. -/
structure PlantInfo where
  plant : Plant
  due_date : Int
  days_until_due : Int
  status : Status
  status_text : String
  watered_today : Bool
  deriving Repr, DecidableEq

/-- One iteration of the homepage loop (app.py lines 62-96): computes
the due date, the days until due, the four-way status classification
with its text, and whether the plant was watered today.  The returned
Bool records whether this iteration appended the plant name to the
`alerts` list (done inside the first two branches in the source). -/
def processPlant (p : Plant) (today : Int) : PlantInfo × Bool :=
  let due_date := p.last_watered + p.frequency
  let days_until_due := due_date - today
  let r :=
    if days_until_due < 0 then
      (Status.overdue, toString (abs days_until_due) ++ " days overdue", true)
    else if days_until_due = 0 then
      (Status.due_today, "Due today", true)
    else if days_until_due ≤ 2 then
      (Status.due_soon,
        "Due in " ++ toString days_until_due ++ " day"
          ++ (if days_until_due > 1 then "s" else ""), false)
    else
      (Status.healthy, "Due in " ++ toString days_until_due ++ " days", false)
  ({ plant := p, due_date := due_date, days_until_due := days_until_due,
     status := r.1, status_text := r.2.1,
     watered_today := p.last_watered == today }, r.2.2)

/-- The homepage loop over all plants (app.py lines 59-96), returning
the processed plant data and the alert names, both in table order. -/
def indexAux (today : Int) : List Plant → List PlantInfo × List String
  | [] => ([], [])
  | p :: ps =>
    let r := processPlant p today
    let rest := indexAux today ps
    (r.1 :: rest.1, if r.2 then p.name :: rest.2 else rest.2)

/-- The homepage view `index` (app.py lines 51-99): reads all plants and
produces the per-plant status records and the alert list. -/
def index (s : Store) (today : Int) : List PlantInfo × List String :=
  indexAux today s.plants

/-- The `index` route as a state transformer: it performs no session
mutation (it only queries and renders), so the store passes through. -/
def indexHandler (s : Store) (today : Int) :
    (List PlantInfo × List String) × Store :=
  (index s today, s)

/-- The POST form of the add route: `request.form` may or may not carry
each field, and carries it as raw text. -/
structure AddForm where
  name : Option String
  frequency : Option String
  deriving Repr, DecidableEq

/-- Digit run of the integer parser: accumulates decimal digits,
failing on the first non-digit character. -/
def parseDigitsAux : List Char → Nat → Option Nat
  | [], acc => some acc
  | c :: cs, acc =>
    if c.isDigit then parseDigitsAux cs (acc * 10 + (c.toNat - 48)) else none

/-- Model of Python int() applied to a form string (app.py line 111):
an optional leading minus sign followed by a nonempty run of decimal
digits yields the integer (negative values included); anything else,
the empty string included, raises ValueError, modelled as `none`.
Python additionally strips surrounding whitespace and accepts a leading
plus sign and underscore digit separators; those inputs are not
modelled, and no claim depends on them. -/
def parseInt (s : String) : Option Int :=
  match s.data with
  | [] => none
  | c :: cs =>
    if c = '-' then
      match cs with
      | [] => none
      | _ :: _ => (parseDigitsAux cs 0).map (fun n => -(n : Int))
    else (parseDigitsAux s.data 0).map (fun n => (n : Int))

/-- Outcome of the add route. -/
inductive AddOutcome
  | ok
    /-- A missing form key: Flask `request.form[...]` aborts the request
    with 400 Bad Request before any store access. -/
  | badRequest
    /-- `int(...)` raised ValueError on a non-numeric frequency; the
    request fails with a 500 error before any store access. -/
  | valueError
  deriving Repr, DecidableEq

/-- The add route, POST branch (app.py lines 102-121): reads `name`,
parses `frequency` with int(), and inserts a new Plant whose
`last_watered` defaults to today (the column default).  The source
performs no validation: any parsed integer frequency and any name text,
including the empty string, are committed. -/
def add (s : Store) (form : AddForm) (today : Int) (newId : Nat) :
    AddOutcome × Store :=
  match form.name with
  | none => (AddOutcome.badRequest, s)
  | some nm =>
    match form.frequency with
    | none => (AddOutcome.badRequest, s)
    | some fs =>
      match parseInt fs with
      | none => (AddOutcome.valueError, s)
      | some freq =>
        (AddOutcome.ok,
          { s with plants := s.plants ++
              [{ id := newId, name := nm, frequency := freq,
                 last_watered := today }] })

/-- Outcome of the water route. -/
inductive WaterOutcome
  | ok
    /-- `Plant.query.get_or_404(id)` aborted with 404 Not Found. -/
  | notFound
  deriving Repr, DecidableEq

/-- The water route (app.py lines 124-138): look the plant up by primary
key (404 aborts before any mutation when it is absent), set its
`last_watered` to today, append a WateringHistory row for it dated
today, and commit both in one transaction. -/
def water (s : Store) (id : Nat) (today : Int) (eid : Nat) :
    WaterOutcome × Store :=
  match s.plants.find? (fun p => p.id == id) with
  | none => (WaterOutcome.notFound, s)
  | some p =>
    (WaterOutcome.ok,
      { plants := s.plants.map (fun q =>
          if q.id == id then { q with last_watered := today } else q),
        history := s.history ++ [{ id := eid, plant_id := p.id, date := today }] })

/-- The about route (app.py lines 152-162): the two table counts.  It
performs no session mutation, so the store passes through. -/
def about (s : Store) : (Nat × Nat) × Store :=
  ((s.plants.length, s.history.length), s)

/-- Status calculator transcribed from the words of the SPEC (section
4.1), for comparison with the code-derived `processPlant`:
due_date = last_watered + frequency days, days_until_due =
due_date − today, first-match classification with the texts the spec
gives ("day(s)" pluralized correctly for N = 1 versus N > 1), and
watered_today = (last_watered == today). -/
def spec_statusCalc (last_watered frequency today : Int) :
    Int × Int × Status × String × Bool :=
  let due_date := last_watered + frequency
  let d := due_date - today
  let r :=
    if d < 0 then (Status.overdue, toString (abs d) ++ " days overdue")
    else if d = 0 then (Status.due_today, "Due today")
    else if 0 < d ∧ d ≤ 2 then
      (Status.due_soon,
        "Due in " ++ toString d ++ (if d = 1 then " day" else " days"))
    else (Status.healthy, "Due in " ++ toString d ++ " days")
  (due_date, d, r.1, r.2, last_watered == today)

/-! ## Helper lemmas -/

/-- The plant-data half of the homepage loop is the pointwise status
computation, in table order. -/
lemma indexAux_fst (today : Int) (l : List Plant) :
    (indexAux today l).1 = l.map (fun p => (processPlant p today).1) := by
  induction l with
  | nil => rfl
  | cons p ps ih => simp [indexAux, ih]

/-- The alert half of the homepage loop keeps exactly the names of the
plants whose iteration raised an alert, in table order. -/
lemma indexAux_snd (today : Int) (l : List Plant) :
    (indexAux today l).2
      = (l.filter (fun p => (processPlant p today).2)).map Plant.name := by
  induction l with
  | nil => rfl
  | cons p ps ih =>
    cases hb : (processPlant p today).2 <;>
      simp [indexAux, hb, ih, List.filter_cons]

/-- An iteration raises an alert exactly when it classified the plant
as overdue or due_today. -/
lemma processPlant_alert_status (p : Plant) (today : Int) :
    (processPlant p today).2
      = ((processPlant p today).1.status == Status.overdue
          || (processPlant p today).1.status == Status.due_today) := by
  simp only [processPlant]
  split_ifs <;> rfl

/-- An iteration raises an alert exactly when the computed
days_until_due is not positive. -/
lemma processPlant_alert_days (p : Plant) (today : Int) :
    (processPlant p today).2
      = decide ((processPlant p today).1.days_until_due ≤ 0) := by
  simp only [processPlant]
  split_ifs with h1 h2 h3 <;> simp <;> omega

/-! ## Claims -/

/-- C1 (counterexample): the add route accepts frequency "0": on an
empty store, submitting name "Rose" and frequency "0" succeeds and
changes the store (a Plant row with frequency 0 is created), so the
claimed ValidationError with the store left unchanged does not happen. -/
theorem C1_counterexample :
    (add { plants := [], history := [] }
        { name := some "Rose", frequency := some "0" } 0 1).1 = AddOutcome.ok ∧
    (add { plants := [], history := [] }
        { name := some "Rose", frequency := some "0" } 0 1).2
      ≠ { plants := [], history := [] } := by
  decide

/-- C1 (amended): the add route fails, leaving the store unchanged,
exactly when the name field is missing, the frequency field is missing,
or the frequency does not parse as an integer; any frequency that does
parse — zero and negative values included — and any name — the empty
string included — are accepted, appending a Plant row with
last_watered = today. -/
theorem C1_amended_validation (s : Store) (form : AddForm) (today : Int)
    (newId : Nat) :
    ((add s form today newId).1 ≠ AddOutcome.ok
      ↔ form.name = none ∨ form.frequency = none ∨
          ∃ fs, form.frequency = some fs ∧ parseInt fs = none) ∧
    ((add s form today newId).1 ≠ AddOutcome.ok →
      (add s form today newId).2 = s) ∧
    (∀ nm fs freq, form.name = some nm → form.frequency = some fs →
        parseInt fs = some freq →
        add s form today newId
          = (AddOutcome.ok,
             { s with plants := s.plants ++
                 [{ id := newId, name := nm, frequency := freq,
                    last_watered := today }] })) := by
  obtain ⟨name, frequency⟩ := form
  refine ⟨?_, ?_, ?_⟩
  · cases name with
    | none => simp [add]
    | some nm =>
      cases frequency with
      | none => simp [add]
      | some fs =>
        cases hp : parseInt fs with
        | none => simp [add, hp]
        | some freq => simp [add, hp]
  · cases name with
    | none => simp [add]
    | some nm =>
      cases frequency with
      | none => simp [add]
      | some fs =>
        cases hp : parseInt fs with
        | none => simp [add, hp]
        | some freq => simp [add, hp]
  · intro nm fs freq h1 h2 h3
    subst h1
    subst h2
    simp [add, h3]

/-- C1 witness: a parseable negative frequency "-3" with an empty name
is accepted and creates the corresponding Plant row. -/
theorem C1_amended_validation_witness :
    add { plants := [], history := [] }
        { name := some "", frequency := some "-3" } 0 1
      = (AddOutcome.ok,
         { plants := [{ id := 1, name := "", frequency := -3,
                        last_watered := 0 }],
           history := [] }) :=
  (C1_amended_validation { plants := [], history := [] }
      { name := some "", frequency := some "-3" } 0 1).2.2
    "" "-3" (-3) rfl rfl (by decide)

/-- C2: the status computation of the homepage loop agrees, on every
plant and every current date, with the status calculator as the spec
words it: due_date = last_watered + frequency, days_until_due =
due_date − today, first-match four-way classification with the given
texts (pluralized correctly for N = 1 versus N > 1), and
watered_today = (last_watered == today); being a function, it is
deterministic and has no side effects. -/
theorem C2_status_calculator (p : Plant) (today : Int) :
    ((processPlant p today).1.due_date,
     (processPlant p today).1.days_until_due,
     (processPlant p today).1.status,
     (processPlant p today).1.status_text,
     (processPlant p today).1.watered_today)
      = spec_statusCalc p.last_watered p.frequency today := by
  simp only [processPlant, spec_statusCalc]
  generalize p.last_watered + p.frequency - today = d
  by_cases h1 : d < 0
  · simp [h1]
  · by_cases h2 : d = 0
    · simp [h1, h2]
    · by_cases h3 : d ≤ 2
      · have h4 : 0 < d ∧ d ≤ 2 := by omega
        have h5 : d = 1 ∨ d = 2 := by omega
        rcases h5 with h5 | h5
        · subst h5
          simp [h1, h2, h3, h4]
        · subst h5
          simp [h1, h2, h3, h4]
          decide
      · have h4 : ¬ (0 < d ∧ d ≤ 2) := by omega
        simp [h1, h2, h3, h4]

/-- C3: marking an existing plant watered and then querying the status
list on the same day shows, for that plant, watered_today = true and
days_until_due equal to its frequency. -/
theorem C3_water_then_status (s : Store) (id : Nat) (p : Plant) (today : Int)
    (eid : Nat) (hfind : s.plants.find? (fun q => q.id == id) = some p) :
    (water s id today eid).1 = WaterOutcome.ok ∧
    ∀ info ∈ (index (water s id today eid).2 today).1, info.plant.id = id →
      info.watered_today = true ∧ info.days_until_due = info.plant.frequency := by
  rw [water, hfind]
  refine ⟨rfl, ?_⟩
  intro info hinfo hid
  rw [index, indexAux_fst] at hinfo
  simp only [List.map_map, List.mem_map] at hinfo
  obtain ⟨q, hq, rfl⟩ := hinfo
  by_cases h : q.id == id
  · simp only [Function.comp, h, if_pos] at hid ⊢
    constructor
    · simp [processPlant]
    · simp [processPlant]
  · simp only [Function.comp, h, if_neg] at hid ⊢
    exact absurd hid (by simpa using h)

/-- C3 witness: watering the single plant (id 1, frequency 7) on day 5
and querying on day 5 gives watered_today and days_until_due = 7. -/
theorem C3_water_then_status_witness :
    (water { plants := [{ id := 1, name := "Rose", frequency := 7,
                          last_watered := 0 }],
             history := [] } 1 5 1).1 = WaterOutcome.ok ∧
    ∀ info ∈ (index (water { plants := [{ id := 1, name := "Rose",
                                          frequency := 7,
                                          last_watered := 0 }],
                             history := [] } 1 5 1).2 5).1,
      info.plant.id = 1 →
      info.watered_today = true ∧
      info.days_until_due = info.plant.frequency :=
  C3_water_then_status
    { plants := [{ id := 1, name := "Rose", frequency := 7,
                   last_watered := 0 }], history := [] }
    1 { id := 1, name := "Rose", frequency := 7, last_watered := 0 } 5 1
    (by decide)

/-- C4: watering an id that matches no plant fails with not-found and
returns the store exactly as it was: no WateringHistory row is created
and no last_watered changes. -/
theorem C4_water_unknown (s : Store) (id : Nat) (today : Int) (eid : Nat)
    (h : s.plants.find? (fun q => q.id == id) = none) :
    water s id today eid = (WaterOutcome.notFound, s) := by
  rw [water, h]

/-- C4 witness: watering id 1 on an empty store is a not-found with the
store unchanged. -/
theorem C4_water_unknown_witness :
    water { plants := [], history := [] } 1 0 1
      = (WaterOutcome.notFound, { plants := [], history := [] }) :=
  C4_water_unknown { plants := [], history := [] } 1 0 1 rfl

/-- C5: the alerts list of the homepage view is exactly the names of
the plants classified overdue or due_today, and that classification
holds exactly when the computed days_until_due is zero or negative. -/
theorem C5_alerts (s : Store) (today : Int) :
    (index s today).2
      = (s.plants.filter (fun p =>
          (processPlant p today).1.status == Status.overdue
            || (processPlant p today).1.status == Status.due_today)).map
          Plant.name
    ∧ ∀ p : Plant,
        ((processPlant p today).1.status == Status.overdue
          || (processPlant p today).1.status == Status.due_today) = true
        ↔ (processPlant p today).1.days_until_due ≤ 0 := by
  constructor
  · rw [index, indexAux_snd]
    congr 1
    exact List.filter_congr fun p _ => processPlant_alert_status p today
  · intro p
    rw [← processPlant_alert_status, processPlant_alert_days]
    simp

/-- C6: the water action is all-or-nothing: either it fails not-found
and the post-state is exactly the pre-state, or it succeeds and the
post-state has both the appended WateringHistory row (for this id,
dated today) and the plant rows with this id set to last_watered =
today; no state with one change but not the other is produced. -/
theorem C6_water_atomic (s : Store) (id : Nat) (today : Int) (eid : Nat) :
    water s id today eid = (WaterOutcome.notFound, s) ∨
    ((water s id today eid).1 = WaterOutcome.ok ∧
     (∃ e, (water s id today eid).2.history = s.history ++ [e] ∧
        e.plant_id = id ∧ e.date = today) ∧
     ∀ q ∈ (water s id today eid).2.plants, q.id = id →
        q.last_watered = today) := by
  cases hfind : s.plants.find? (fun q => q.id == id) with
  | none => exact Or.inl (by rw [water, hfind])
  | some p =>
    right
    have hpid : p.id = id := by
      have := List.find?_some hfind
      simpa using this
    rw [water, hfind]
    refine ⟨rfl, ⟨⟨{ id := eid, plant_id := p.id, date := today },
      rfl, hpid, rfl⟩, ?_⟩⟩
    intro q hq hid
    simp only [List.mem_map] at hq
    obtain ⟨r, hr, rfl⟩ := hq
    by_cases h : r.id == id
    · simp [h]
    · simp only [h, if_neg] at hid ⊢
      exact absurd hid (by simpa using h)

/-- C7: get-stats is a pure read: it returns the store unchanged, and
evaluating it again on that returned store gives the same counts. -/
theorem C7_stats_idempotent (s : Store) :
    (about s).2 = s ∧ (about ((about s).2)).1 = (about s).1 :=
  ⟨rfl, rfl⟩

/-- C8: a plant with positive frequency whose watered_today flag is set
is classified due_soon or healthy — never overdue or due_today — and
raises no alert. -/
theorem C8_watered_today_not_due (p : Plant) (today : Int)
    (hfreq : 0 < p.frequency)
    (hw : (processPlant p today).1.watered_today = true) :
    ((processPlant p today).1.status = Status.due_soon ∨
      (processPlant p today).1.status = Status.healthy) ∧
    (processPlant p today).2 = false := by
  have hlw : p.last_watered = today := by
    simpa [processPlant] using hw
  have h1 : ¬ (p.frequency < 0) := by omega
  have h2 : ¬ (p.frequency = 0) := by omega
  simp only [processPlant, hlw]
  by_cases h3 : p.frequency ≤ 2 <;> simp [h1, h2, h3]

/-- C8 witness: a plant with frequency 3 last watered today (day 4) is
healthy and raises no alert. -/
theorem C8_watered_today_not_due_witness :
    (((processPlant { id := 1, name := "Rose", frequency := 3,
                      last_watered := 4 } 4).1.status = Status.due_soon ∨
      (processPlant { id := 1, name := "Rose", frequency := 3,
                      last_watered := 4 } 4).1.status = Status.healthy) ∧
     (processPlant { id := 1, name := "Rose", frequency := 3,
                     last_watered := 4 } 4).2 = false) :=
  C8_watered_today_not_due
    { id := 1, name := "Rose", frequency := 3, last_watered := 4 } 4
    (by decide) (by decide)

/-- C9: a successful water(id) appends exactly one WateringHistory row,
dated today, and the updated plant rows with that id carry
last_watered equal to that same date, so the newest history entry
agrees with the plant record. -/
theorem C9_event_matches_plant (s : Store) (id : Nat) (p : Plant) (today : Int)
    (eid : Nat) (hfind : s.plants.find? (fun q => q.id == id) = some p) :
    ∃ e, (water s id today eid).2.history = s.history ++ [e] ∧
      e.date = today ∧
      ∀ q ∈ (water s id today eid).2.plants, q.id = id →
        q.last_watered = e.date := by
  rw [water, hfind]
  refine ⟨{ id := eid, plant_id := p.id, date := today }, rfl, rfl, ?_⟩
  intro q hq hid
  simp only [List.mem_map] at hq
  obtain ⟨r, hr, rfl⟩ := hq
  by_cases h : r.id == id
  · simp [h]
  · simp only [h, if_neg] at hid ⊢
    exact absurd hid (by simpa using h)

/-- C9 witness: watering plant 1 on day 5 appends an event dated 5 and
the plant row carries last_watered = 5. -/
theorem C9_event_matches_plant_witness :
    ∃ e, (water { plants := [{ id := 1, name := "Rose", frequency := 7,
                               last_watered := 0 }],
                  history := [] } 1 5 2).2.history = [] ++ [e] ∧
      e.date = 5 ∧
      ∀ q ∈ (water { plants := [{ id := 1, name := "Rose", frequency := 7,
                                  last_watered := 0 }],
                     history := [] } 1 5 2).2.plants, q.id = 1 →
        q.last_watered = e.date :=
  C9_event_matches_plant
    { plants := [{ id := 1, name := "Rose", frequency := 7,
                   last_watered := 0 }], history := [] }
    1 { id := 1, name := "Rose", frequency := 7, last_watered := 0 } 5 2
    (by decide)

/-- C10: the homepage view is read-only: after rendering, every Plant
row and every WateringHistory row of the store is exactly as before. -/
theorem C10_index_readonly (s : Store) (today : Int) :
    (indexHandler s today).2.plants = s.plants ∧
    (indexHandler s today).2.history = s.history :=
  ⟨rfl, rfl⟩

end PlantTracker
